import Mathlib

/-!
Verification of the static-file HTTP server in src/server.py.

The program is a thin subclass of Python's http.server.SimpleHTTPRequestHandler:
it overrides end_headers to append three CORS headers to every response
(src/server.py lines 18-23), fixes the serving directory to the directory that
contains the script itself (line 12), and runs a TCPServer accept loop on port
8000 (lines 25-34).

The underlying file-serving primitive (SimpleHTTPRequestHandler and its base
BaseHTTPRequestHandler) is not part of the repository; its request handling is
embedded here faithfully from CPython's http.server module: translate_path
sanitization, the directory redirect / index-file logic of send_head, the
404 error path, and the 501 "Unsupported method" dispatch for methods with no
do_METHOD handler.

Request paths are modelled as strings, assumed already percent-decoded (the
claims involve no percent escapes); string scanning is done over the
underlying character list so that every definition reduces in the kernel.
-/

namespace LandingServer

/-- Bytes of a file, one natural number per byte. -/
abbrev Bytes := List Nat

/-- A node of the filesystem tree: a regular file with its contents, or a
directory with named children. The tree models the whole filesystem, so that
"outside the serving root" is expressible. -/
inductive Entry where
  | file (contents : Bytes)
  | dir (children : List (String × Entry))

/-- Find a named child in a directory's child list. -/
def findChild : List (String × Entry) → String → Option Entry
  | [], _ => none
  | (n, e) :: rest, name => if n = name then some e else findChild rest name

/-- Follow a component path down the filesystem tree. -/
def lookup : Entry → List String → Option Entry
  | e, [] => some e
  | Entry.file _, _ :: _ => none
  | Entry.dir cs, n :: rest =>
    match findChild cs n with
    | some e => lookup e rest
    | none => none

/-- Contents of the regular file at a path, if any (os.path.isfile + open + read). -/
def fileAt (e : Entry) (p : List String) : Option Bytes :=
  match lookup e p with
  | some (Entry.file b) => some b
  | _ => none

/-- Split a character list at every slash, like Python's str.split with
separator slash: n separators yield n+1 pieces, empty pieces included. -/
def splitOnSlash : List Char → List (List Char)
  | [] => [[]]
  | c :: cs =>
    if c = '/' then [] :: splitOnSlash cs
    else
      match splitOnSlash cs with
      | [] => [[c]]
      | w :: ws => (c :: w) :: ws

/-- Slash-separated components of a string. -/
def splitSlash (s : String) : List String :=
  (splitOnSlash s.data).map List.asString

/-- Characters before the first query or fragment delimiter, as in
translate_path splitting at the question mark and the hash sign. -/
def stripQueryChars : List Char → List Char
  | [] => []
  | c :: cs => if c = '?' ∨ c = '#' then [] else c :: stripQueryChars cs

/-- Request path with any query string or fragment removed. -/
def stripQuery (s : String) : String :=
  List.asString (stripQueryChars s.data)

/-- Python's str.rstrip: drop trailing whitespace. -/
def rstrip (s : String) : String :=
  List.asString ((s.data.reverse.dropWhile Char.isWhitespace).reverse)

/-- Whether the last character is a slash. -/
def endsSlash (s : String) : Bool :=
  match s.data.getLast? with
  | some c => c = '/'
  | none => false

/-- Normalization pass of posixpath.normpath over the components of an
absolute path: empty and dot components vanish, dot-dot pops the previous
component and is dropped at the root. The accumulator holds the kept
components in reverse. -/
def normgo : List String → List String → List String
  | acc, [] => acc.reverse
  | acc, w :: ws =>
    if w = "" ∨ w = "." then normgo acc ws
    else if w = ".." then normgo acc.tail ws
    else normgo (w :: acc) ws

/-- Component sanitization of SimpleHTTPRequestHandler.translate_path:
normpath, then drop every word that is empty or a dot or a dot-dot (the
filter over words in the CPython source; for a relative request path the
dot-dot components normpath keeps at the front are removed here, so the
result agrees with CPython for relative paths as well). -/
def sanitize (ws : List String) : List String :=
  (normgo [] ws).filter (fun w => !(w == "" || w == "." || w == ".."))

/-- Result of translate_path: the resolved component path (serving root
components followed by the sanitized request components) plus whether the
request path ended in a slash after rstrip, which CPython records by
appending a slash to the returned filesystem path. -/
structure TPath where
  parts : List String
  trailingSlash : Bool

/-- SimpleHTTPRequestHandler.translate_path over the component representation:
strip query and fragment, record the trailing slash, normalize, drop unsafe
words, and resolve against the serving root. -/
def translate_path (root : List String) (reqPath : String) : TPath :=
  { parts := root ++ sanitize (splitSlash (stripQuery reqPath)),
    trailingSlash := endsSlash (rstrip (stripQuery reqPath)) }

/-- Provenance-tagged response body: bytes streamed from an opened file, a
generated directory listing, the generated error page of send_error, or no
body at all. -/
inductive Body where
  | fileBytes (b : Bytes)
  | listing (names : List String)
  | errorPage (code : Nat) (message : String)
  | empty
deriving DecidableEq

/-- An HTTP response: status code, finalized header list, body. -/
structure Response where
  status : Nat
  headers : List (String × String)
  body : Body

/-- The three CORS headers injected by Handler.end_headers
(src/server.py lines 18-23), byte-for-byte. -/
def corsHeaders : List (String × String) :=
  [("Access-Control-Allow-Origin", "*"),
   ("Access-Control-Allow-Methods", "GET, POST, OPTIONS"),
   ("Access-Control-Allow-Headers", "Content-Type")]

/-- Handler.end_headers: append the CORS headers to the buffered headers,
then the base end_headers flushes the buffer unchanged. -/
def end_headers (buffered : List (String × String)) : List (String × String) :=
  buffered ++ corsHeaders

/-- Finalize a response: every response the handler produces goes through
end_headers, so the CORS headers land on every header list. -/
def mkResponse (status : Nat) (buffered : List (String × String)) (body : Body) : Response :=
  { status := status, headers := end_headers buffered, body := body }

/-- BaseHTTPRequestHandler.send_error: error status, error content type and
connection-close headers, generated error page body. -/
def send_error (code : Nat) (message : String) : Response :=
  mkResponse code
    [("Content-Type", "text/html;charset=utf-8"), ("Connection", "close")]
    (Body.errorPage code message)

/-- Whether the first list is an initial run of the second. -/
def startsWithChars : List Char → List Char → Bool
  | [], _ => true
  | _ :: _, [] => false
  | p :: ps, c :: cs => p = c && startsWithChars ps cs

/-- Content-type guess from the file name extension (abridged MIME map; no
claim constrains the values beyond the header name). -/
def guess_type (parts : List String) : String :=
  match parts.getLast? with
  | some name =>
    if startsWithChars "lmth.".data name.data.reverse ||
       startsWithChars "mth.".data name.data.reverse
    then "text/html" else "application/octet-stream"
  | none => "application/octet-stream"

/-- The 200 file response of send_head + copyfile: content type and length
headers, body streamed from the opened file. -/
def serveFile (ctype : String) (b : Bytes) : Response :=
  mkResponse 200
    [("Content-type", ctype), ("Content-Length", toString b.length)]
    (Body.fileBytes b)

/-- The 301 redirect send_head issues for a directory path that does not end
in a slash: Location header with the slash appended, empty body. -/
def redirectResponse (location : String) : Response :=
  mkResponse 301 [("Location", location), ("Content-Length", "0")] Body.empty

/-- SimpleHTTPRequestHandler.list_directory: 200 with a generated HTML
listing of the child names. -/
def list_directory (children : List (String × Entry)) : Response :=
  mkResponse 200
    [("Content-type", "text/html; charset=utf-8")]
    (Body.listing (children.map Prod.fst))

/-- Directory branch of send_head: redirect when the request path lacks the
trailing slash, otherwise serve index.html or index.htm if present, else the
generated listing. -/
def dirResponse (fs : Entry) (parts : List String) (cs : List (String × Entry))
    (slashEnd : Bool) (location : String) : Response :=
  if slashEnd then
    match fileAt fs (parts ++ ["index.html"]) with
    | some b => serveFile (guess_type (parts ++ ["index.html"])) b
    | none =>
      match fileAt fs (parts ++ ["index.htm"]) with
      | some b => serveFile (guess_type (parts ++ ["index.htm"])) b
      | none => list_directory cs
  else redirectResponse location

/-- Non-directory branch of send_head: a trailing slash on a non-directory is
404, otherwise open the file or 404 when that fails. -/
def plainResponse (fs : Entry) (parts : List String) (trailingSlash : Bool) : Response :=
  if trailingSlash then send_error 404 "File not found"
  else
    match fileAt fs parts with
    | some b => serveFile (guess_type parts) b
    | none => send_error 404 "File not found"

/-- SimpleHTTPRequestHandler.do_GET via send_head over the modelled
filesystem fs, with the serving root at the component path root. -/
def do_GET (fs : Entry) (root : List String) (reqPath : String) : Response :=
  match lookup fs (translate_path root reqPath).parts with
  | some (Entry.dir cs) =>
    dirResponse fs (translate_path root reqPath).parts cs
      (endsSlash (stripQuery reqPath)) (stripQuery reqPath ++ "/")
  | _ =>
    plainResponse fs (translate_path root reqPath).parts
      (translate_path root reqPath).trailingSlash

/-- SimpleHTTPRequestHandler.do_HEAD: same as GET with the body withheld. -/
def do_HEAD (fs : Entry) (root : List String) (reqPath : String) : Response :=
  { do_GET fs root reqPath with body := Body.empty }

/-- Request method as parsed from the request line. -/
inductive Method where
  | GET
  | HEAD
  | POST
  | OPTIONS
  | other (name : String)
deriving DecidableEq

/-- Name of a method, as it appears in the request line. -/
def methodName : Method → String
  | Method.GET => "GET"
  | Method.HEAD => "HEAD"
  | Method.POST => "POST"
  | Method.OPTIONS => "OPTIONS"
  | Method.other s => s

/-- An inbound HTTP request: method and request target. -/
structure Request where
  method : Method
  path : String

/-- BaseHTTPRequestHandler.handle_one_request dispatch for the Handler class:
only do_GET and do_HEAD exist (inherited from SimpleHTTPRequestHandler), so
every other method gets send_error 501 Unsupported method. -/
def handle (fs : Entry) (root : List String) (req : Request) : Response :=
  match req.method with
  | Method.GET => do_GET fs root req.path
  | Method.HEAD => do_HEAD fs root req.path
  | m => send_error 501 ("Unsupported method (" ++ methodName m ++ ")")

/-- The serve_forever accept loop of main (src/server.py line 34): each
accepted request is handled independently, with no cross-request state. -/
def serveAll (fs : Entry) (root : List String) (reqs : List Request) : List Response :=
  reqs.map (handle fs root)

/-- Configured port, src/server.py line 11. -/
def PORT : Nat := 8000

/-- Host part of the bind address, src/server.py line 26: the empty string. -/
def bindHost : String := ""

/-- Socket semantics of the host part: the empty string and 0.0.0.0 both
bind INADDR_ANY, every interface. -/
def addrIsAllInterfaces (h : String) : Bool :=
  h == "" || h == "0.0.0.0"

/-- Whether a path string is absolute. -/
def isAbsPath (s : String) : Bool :=
  match s.data with
  | c :: _ => c = '/'
  | [] => false

/-- os.path.abspath over components: an absolute path is normalized as is, a
relative one is joined onto the current working directory first. -/
def abspath (cwd : List String) (p : String) : List String :=
  if isAbsPath p then normgo [] (splitSlash p)
  else normgo [] (cwd ++ splitSlash p)

/-- os.path.dirname of a normalized absolute component path. -/
def dirname (parts : List String) : List String :=
  parts.dropLast

/-- DIRECTORY of src/server.py line 12: the directory containing the server's
own entry-point file, os.path.dirname (os.path.abspath scriptFile), as a
function of the current working directory and the script path. -/
def DIRECTORY (cwd : List String) (file : String) : List String :=
  dirname (abspath cwd file)

/-- Python exceptions that can escape main: OSError from the TCPServer
constructor at bind time, KeyboardInterrupt from the interrupt signal during
serve_forever. -/
inductive PyExc where
  | osError (message : String)
  | keyboardInterrupt
deriving DecidableEq

/-- Observable outcome of one terminating run of the process. -/
structure RunOutcome where
  uncaught : Option PyExc
  socketClosed : Bool
  bindAttempts : Nat

/-- Process exit status of the CPython runtime for a run: 0 on a clean
return, 130 (termination by SIGINT) when a KeyboardInterrupt escapes, 1
(traceback printed) for any other uncaught exception. -/
def exitCode (o : RunOutcome) : Nat :=
  match o.uncaught with
  | none => 0
  | some PyExc.keyboardInterrupt => 130
  | some (PyExc.osError _) => 1

/-- main (src/server.py lines 25-34): the TCPServer constructor binds once
and raises OSError on failure (closing the socket before re-raising); main
installs no exception handler, so otherwise serve_forever runs until the
interrupt signal raises KeyboardInterrupt, which propagates while the
with-statement closes the listening socket. -/
def mainRun (bindError : Option String) : RunOutcome :=
  match bindError with
  | some m => { uncaught := some (PyExc.osError m), socketClosed := true, bindAttempts := 1 }
  | none => { uncaught := some PyExc.keyboardInterrupt, socketClosed := true, bindAttempts := 1 }

/-- Bytes of the spec's example body. -/
def hiBytes : Bytes := "<h1>hi</h1>".data.map Char.toNat

/-- Serving root used as a concrete test tree: one index.html. -/
def fsDemo : Entry := Entry.dir [("index.html", Entry.file hiBytes)]

/-- Filesystem with the serving root at component srv and a secret file
outside it, for the traversal claims. -/
def fsTrav : Entry :=
  Entry.dir
    [("srv", Entry.dir [("index.html", Entry.file [104, 105])]),
     ("secret.txt", Entry.file [42, 42])]

/-- Serving root containing a subdirectory with an index.html. -/
def fsSub : Entry :=
  Entry.dir [("sub", Entry.dir [("index.html", Entry.file [104, 105])])]

/-- A buffered header list is clean when it never uses one of the three CORS
header names, so the base file-serving logic cannot override the injected
values. -/
def corsClean (l : List (String × String)) : Bool :=
  l.all (fun h =>
    !(h.1 == "Access-Control-Allow-Origin" ||
      h.1 == "Access-Control-Allow-Methods" ||
      h.1 == "Access-Control-Allow-Headers"))

lemma dirResponse_split (fs : Entry) (parts : List String) (cs : List (String × Entry))
    (se : Bool) (loc : String) :
    ∃ b, (dirResponse fs parts cs se loc).headers = b ++ corsHeaders ∧ corsClean b = true := by
  unfold dirResponse
  split
  · split
    · exact ⟨_, rfl, rfl⟩
    · split
      · exact ⟨_, rfl, rfl⟩
      · exact ⟨_, rfl, rfl⟩
  · exact ⟨_, rfl, rfl⟩

lemma plainResponse_split (fs : Entry) (parts : List String) (ts : Bool) :
    ∃ b, (plainResponse fs parts ts).headers = b ++ corsHeaders ∧ corsClean b = true := by
  unfold plainResponse
  split
  · exact ⟨_, rfl, rfl⟩
  · split
    · exact ⟨_, rfl, rfl⟩
    · exact ⟨_, rfl, rfl⟩

lemma do_GET_split (fs : Entry) (root : List String) (p : String) :
    ∃ b, (do_GET fs root p).headers = b ++ corsHeaders ∧ corsClean b = true := by
  unfold do_GET
  split
  · exact dirResponse_split _ _ _ _ _
  · exact plainResponse_split _ _ _

lemma handle_split (fs : Entry) (root : List String) (req : Request) :
    ∃ b, (handle fs root req).headers = b ++ corsHeaders ∧ corsClean b = true := by
  rcases req with ⟨m, p⟩
  cases m with
  | GET => exact do_GET_split fs root p
  | HEAD =>
    show ∃ b, (do_GET fs root p).headers = b ++ corsHeaders ∧ corsClean b = true
    exact do_GET_split fs root p
  | POST => exact ⟨_, rfl, rfl⟩
  | OPTIONS => exact ⟨_, rfl, rfl⟩
  | other s => exact ⟨_, rfl, rfl⟩

lemma clean_filter_nil (b : List (String × String)) (hb : corsClean b = true) (n : String)
    (hn : (n == "Access-Control-Allow-Origin" ||
           n == "Access-Control-Allow-Methods" ||
           n == "Access-Control-Allow-Headers") = true) :
    b.filter (fun h => h.1 == n) = [] := by
  induction b with
  | nil => rfl
  | cons a t ih =>
    simp only [corsClean, List.all_cons, Bool.and_eq_true] at hb
    obtain ⟨ha, ht⟩ := hb
    simp only [Bool.not_eq_true', Bool.or_eq_false_iff, beq_eq_false_iff_ne, ne_eq] at ha
    simp only [Bool.or_eq_true, beq_iff_eq] at hn
    have hne : (a.1 == n) = false := by
      apply beq_eq_false_iff_ne.mpr
      intro he
      subst he
      obtain ⟨⟨h1, h2⟩, h3⟩ := ha
      rcases hn with (h | h) | h
      · exact h1 h
      · exact h2 h
      · exact h3 h
    rw [List.filter_cons, hne]
    simp only [Bool.false_eq_true, if_false]
    exact ih ht

/-- C1: every response the server finalizes, for every method and whether or
not the resolved path exists, carries the three CORS headers with exactly
the listed values, and the base file-serving logic never overrides them: the
full header list, filtered at each of the three names, is exactly the
injected pair. -/
theorem C1_cors_on_every_response (fs : Entry) (root : List String) (req : Request) :
    (handle fs root req).headers.filter (fun h => h.1 == "Access-Control-Allow-Origin") =
      [("Access-Control-Allow-Origin", "*")] ∧
    (handle fs root req).headers.filter (fun h => h.1 == "Access-Control-Allow-Methods") =
      [("Access-Control-Allow-Methods", "GET, POST, OPTIONS")] ∧
    (handle fs root req).headers.filter (fun h => h.1 == "Access-Control-Allow-Headers") =
      [("Access-Control-Allow-Headers", "Content-Type")] := by
  obtain ⟨b, hb, hc⟩ := handle_split fs root req
  refine ⟨?_, ?_, ?_⟩ <;>
    rw [hb, List.filter_append, clean_filter_nil b hc _ (by decide)] <;> rfl

lemma fileAt_eq (e : Entry) (p : List String) (b : Bytes) :
    fileAt e p = some b ↔ lookup e p = some (Entry.file b) := by
  unfold fileAt
  cases hl : lookup e p with
  | none => simp
  | some entry => cases entry with
    | file c => simp
    | dir cs => simp

lemma dirResponse_file_body (fs : Entry) (parts : List String) (cs : List (String × Entry))
    (se : Bool) (loc : String) (b : Bytes)
    (h : (dirResponse fs parts cs se loc).body = Body.fileBytes b) :
    fileAt fs (parts ++ ["index.html"]) = some b ∨
    fileAt fs (parts ++ ["index.htm"]) = some b := by
  unfold dirResponse at h
  split at h
  · split at h
    · rename_i heq
      left
      rw [heq]
      injection h with hbb
      rw [hbb]
    · split at h
      · rename_i heq
        right
        rw [heq]
        injection h with hbb
        rw [hbb]
      · exact absurd h (by simp [list_directory, mkResponse])
  · exact absurd h (by simp [redirectResponse, mkResponse])

lemma plainResponse_file_body (fs : Entry) (parts : List String) (ts : Bool) (b : Bytes)
    (h : (plainResponse fs parts ts).body = Body.fileBytes b) :
    fileAt fs parts = some b := by
  unfold plainResponse at h
  split at h
  · exact absurd h (by simp [send_error, mkResponse])
  · split at h
    · rename_i heq
      rw [heq]
      injection h with hbb
      rw [hbb]
    · exact absurd h (by simp [send_error, mkResponse])

lemma do_GET_file_body (fs : Entry) (root : List String) (p : String) (b : Bytes)
    (h : (do_GET fs root p).body = Body.fileBytes b) :
    ∃ rest, fileAt fs (root ++ rest) = some b := by
  have hparts : (translate_path root p).parts = root ++ sanitize (splitSlash (stripQuery p)) := rfl
  unfold do_GET at h
  split at h
  · rcases dirResponse_file_body _ _ _ _ _ _ h with h1 | h1
    · refine ⟨sanitize (splitSlash (stripQuery p)) ++ ["index.html"], ?_⟩
      rw [← List.append_assoc, ← hparts]
      exact h1
    · refine ⟨sanitize (splitSlash (stripQuery p)) ++ ["index.htm"], ?_⟩
      rw [← List.append_assoc, ← hparts]
      exact h1
  · refine ⟨sanitize (splitSlash (stripQuery p)), ?_⟩
    rw [← hparts]
    exact plainResponse_file_body _ _ _ _ h

/-- C2 (amended): a GET request can never leak a file from outside the root
directory: whenever the response body is bytes streamed from a file, that
file lies at a path whose components extend the serving root. The original
status clause does not hold, see the counterexample: dot-dot components are
stripped by translate_path, so a traversal path is served as the
corresponding in-root path and can answer 200 rather than 404 or 400. -/
theorem C2_root_confinement (fs : Entry) (root : List String) (p : String) (b : Bytes)
    (h : (handle fs root { method := Method.GET, path := p }).body = Body.fileBytes b) :
    ∃ rest, fileAt fs (root ++ rest) = some b :=
  do_GET_file_body fs root p b h

/-- Witness for C2: with the serving root at srv, the traversal request
/../index.html is answered with bytes that do come from a file under srv. -/
theorem C2_root_confinement_witness :
    ∃ rest, fileAt fsTrav (["srv"] ++ rest) = some [104, 105] :=
  C2_root_confinement fsTrav ["srv"] "/../index.html" [104, 105] rfl

/-- C2 counterexample: the claim demands status 404 or 400 for every
traversal path, but /../index.html has its dot-dot stripped, resolves to the
in-root index.html of the srv serving root, and is answered 200. -/
theorem C2_status_counterexample :
    (handle fsTrav ["srv"] { method := Method.GET, path := "/../index.html" }).status = 200 ∧
    (handle fsTrav ["srv"] { method := Method.GET, path := "/../index.html" }).status ≠ 404 ∧
    (handle fsTrav ["srv"] { method := Method.GET, path := "/../index.html" }).status ≠ 400 :=
  ⟨rfl, by decide, by decide⟩

/-- C3: a GET request whose path resolves (without a trailing slash) to a
regular file under the root returns status 200 with a body byte-identical to
the file's contents. -/
theorem C3_file_get (fs : Entry) (root : List String) (p : String) (b : Bytes)
    (hts : (translate_path root p).trailingSlash = false)
    (hf : fileAt fs (translate_path root p).parts = some b) :
    (handle fs root { method := Method.GET, path := p }).status = 200 ∧
    (handle fs root { method := Method.GET, path := p }).body = Body.fileBytes b := by
  have hl : lookup fs (translate_path root p).parts = some (Entry.file b) :=
    (fileAt_eq fs _ b).mp hf
  show (do_GET fs root p).status = 200 ∧ (do_GET fs root p).body = Body.fileBytes b
  unfold do_GET
  rw [hl]
  simp [plainResponse, hts, hf, serveFile, mkResponse]

/-- Witness for C3: the spec's example, a root holding index.html with body
the h1 hi page, answered 200 with exactly those bytes. -/
theorem C3_file_get_witness :
    (handle fsDemo [] { method := Method.GET, path := "/index.html" }).status = 200 ∧
    (handle fsDemo [] { method := Method.GET, path := "/index.html" }).body = Body.fileBytes hiBytes :=
  C3_file_get fsDemo [] "/index.html" hiBytes rfl rfl

/-- C4: a GET to a path with nothing at it under the root is the send_error
404 response, which still carries the three CORS headers, and the accept
loop treats every request independently, so surrounding requests are served
exactly as they would be alone. -/
theorem C4_missing_404 (fs : Entry) (root : List String) (p : String)
    (h : lookup fs (translate_path root p).parts = none) :
    (handle fs root { method := Method.GET, path := p }).status = 404 ∧
    ("Access-Control-Allow-Origin", "*") ∈
      (handle fs root { method := Method.GET, path := p }).headers ∧
    ("Access-Control-Allow-Methods", "GET, POST, OPTIONS") ∈
      (handle fs root { method := Method.GET, path := p }).headers ∧
    ("Access-Control-Allow-Headers", "Content-Type") ∈
      (handle fs root { method := Method.GET, path := p }).headers ∧
    ∀ pre post,
      serveAll fs root (pre ++ { method := Method.GET, path := p } :: post) =
        serveAll fs root pre ++
          handle fs root { method := Method.GET, path := p } :: serveAll fs root post := by
  have hfa : fileAt fs (translate_path root p).parts = none := by
    unfold fileAt
    rw [h]
  have hh : handle fs root { method := Method.GET, path := p } =
      send_error 404 "File not found" := by
    show do_GET fs root p = send_error 404 "File not found"
    unfold do_GET
    rw [h]
    unfold plainResponse
    cases hts : (translate_path root p).trailingSlash
    · simp only [Bool.false_eq_true, if_false, hfa]
    · simp only [if_true]
  refine ⟨by rw [hh]; rfl, by rw [hh]; decide, by rw [hh]; decide, by rw [hh]; decide, ?_⟩
  intro pre post
  simp [serveAll]

/-- Witness for C4: a missing path on the demo root gets 404 with the CORS
origin header, and a request before and after it are served unaffected. -/
theorem C4_missing_404_witness :
    (handle fsDemo [] { method := Method.GET, path := "/missing.png" }).status = 404 ∧
    ("Access-Control-Allow-Origin", "*") ∈
      (handle fsDemo [] { method := Method.GET, path := "/missing.png" }).headers ∧
    serveAll fsDemo []
        ([{ method := Method.GET, path := "/index.html" }] ++
          { method := Method.GET, path := "/missing.png" } ::
            [{ method := Method.GET, path := "/index.html" }]) =
      serveAll fsDemo [] [{ method := Method.GET, path := "/index.html" }] ++
        handle fsDemo [] { method := Method.GET, path := "/missing.png" } ::
          serveAll fsDemo [] [{ method := Method.GET, path := "/index.html" }] :=
  ⟨(C4_missing_404 fsDemo [] "/missing.png" rfl).1,
   (C4_missing_404 fsDemo [] "/missing.png" rfl).2.1,
   (C4_missing_404 fsDemo [] "/missing.png" rfl).2.2.2.2
     [{ method := Method.GET, path := "/index.html" }]
     [{ method := Method.GET, path := "/index.html" }]⟩

/-- C5 counterexample: the claim promises a default empty-body 2xx success
for OPTIONS, but the Handler class defines no do_OPTIONS, so the dispatch of
the underlying primitive answers 501 with an error-page body. -/
theorem C5_options_counterexample :
    (handle fsDemo [] { method := Method.OPTIONS, path := "/" }).status = 501 ∧
    ¬(200 ≤ (handle fsDemo [] { method := Method.OPTIONS, path := "/" }).status ∧
      (handle fsDemo [] { method := Method.OPTIONS, path := "/" }).status ≤ 299) ∧
    (handle fsDemo [] { method := Method.OPTIONS, path := "/" }).body ≠ Body.empty :=
  ⟨rfl, by decide, by decide⟩

/-- C5 (amended): every OPTIONS request carries the same three CORS headers
as any other response, and is the underlying primitive's 501 Unsupported
method error response with its generated error body, because no do_OPTIONS
handler is defined. -/
theorem C5_options_501 (fs : Entry) (root : List String) (p : String) :
    (handle fs root { method := Method.OPTIONS, path := p }).status = 501 ∧
    ("Access-Control-Allow-Origin", "*") ∈
      (handle fs root { method := Method.OPTIONS, path := p }).headers ∧
    ("Access-Control-Allow-Methods", "GET, POST, OPTIONS") ∈
      (handle fs root { method := Method.OPTIONS, path := p }).headers ∧
    ("Access-Control-Allow-Headers", "Content-Type") ∈
      (handle fs root { method := Method.OPTIONS, path := p }).headers ∧
    (handle fs root { method := Method.OPTIONS, path := p }).body =
      Body.errorPage 501 "Unsupported method (OPTIONS)" :=
  ⟨rfl,
   show ("Access-Control-Allow-Origin", "*") ∈
       (send_error 501 "Unsupported method (OPTIONS)").headers by decide,
   show ("Access-Control-Allow-Methods", "GET, POST, OPTIONS") ∈
       (send_error 501 "Unsupported method (OPTIONS)").headers by decide,
   show ("Access-Control-Allow-Headers", "Content-Type") ∈
       (send_error 501 "Unsupported method (OPTIONS)").headers by decide,
   rfl⟩

/-- C6 counterexample: main installs no handler for the interrupt, so the
run that is interrupted during serve_forever does not exit with status 0. -/
theorem C6_interrupt_counterexample : exitCode (mainRun none) ≠ 0 := by decide

/-- C6 (amended): an interrupt during the serve loop stops the server — the
KeyboardInterrupt escapes serve_forever uncaught while the with-statement
closes the listening socket — but the process terminates with the non-zero
status of an uncaught KeyboardInterrupt (SIGINT termination, 130), not with
a graceful exit status 0. -/
theorem C6_interrupt_nonzero_exit :
    (mainRun none).uncaught = some PyExc.keyboardInterrupt ∧
    (mainRun none).socketClosed = true ∧
    exitCode (mainRun none) = 130 ∧
    exitCode (mainRun none) ≠ 0 :=
  ⟨rfl, rfl, rfl, by decide⟩

/-- C7: the server binds the empty host, which is every interface, at port
8000, and the serving root is the directory containing the entry-point file:
for an absolute script path the computed DIRECTORY is independent of the
process's current working directory and equals the dirname of the script's
normalized path. Both values are plain constants of the program, set once. -/
theorem C7_config (cwd cwd2 : List String) (file : String)
    (habs : isAbsPath file = true) :
    PORT = 8000 ∧
    addrIsAllInterfaces bindHost = true ∧
    DIRECTORY cwd file = DIRECTORY cwd2 file ∧
    DIRECTORY cwd file = dirname (normgo [] (splitSlash file)) := by
  refine ⟨rfl, rfl, ?_, ?_⟩ <;> unfold DIRECTORY abspath <;> rw [habs] <;> simp

/-- Witness for C7: the script at an absolute path under app yields the same
serving root from two different working directories. -/
theorem C7_config_witness :
    PORT = 8000 ∧
    addrIsAllInterfaces bindHost = true ∧
    DIRECTORY ["tmp"] "/app/server.py" = DIRECTORY ["home", "user"] "/app/server.py" ∧
    DIRECTORY ["tmp"] "/app/server.py" = dirname (normgo [] (splitSlash "/app/server.py")) :=
  C7_config ["tmp"] ["home", "user"] "/app/server.py" rfl

/-- C8 counterexample: a GET to the directory path sub, whose directory does
contain an index.html, is not answered 200: send_head first redirects any
directory request lacking the trailing slash with 301. -/
theorem C8_dir_counterexample :
    (handle fsSub [] { method := Method.GET, path := "/sub" }).status = 301 ∧
    (handle fsSub [] { method := Method.GET, path := "/sub" }).status ≠ 200 :=
  ⟨rfl, by decide⟩

/-- C8 (amended): a GET to a directory path under the root containing an
index.html returns 200 with that index file's contents when the request path
ends in a slash; without the trailing slash it returns a 301 redirect whose
Location is the same path with the slash appended. -/
theorem C8_dir_index (fs : Entry) (root : List String) (p : String)
    (cs : List (String × Entry)) (b : Bytes)
    (hdir : lookup fs (translate_path root p).parts = some (Entry.dir cs))
    (hidx : fileAt fs ((translate_path root p).parts ++ ["index.html"]) = some b) :
    (endsSlash (stripQuery p) = true →
      (handle fs root { method := Method.GET, path := p }).status = 200 ∧
      (handle fs root { method := Method.GET, path := p }).body = Body.fileBytes b) ∧
    (endsSlash (stripQuery p) = false →
      (handle fs root { method := Method.GET, path := p }).status = 301 ∧
      ("Location", stripQuery p ++ "/") ∈
        (handle fs root { method := Method.GET, path := p }).headers) := by
  have hshow : handle fs root { method := Method.GET, path := p } =
      dirResponse fs (translate_path root p).parts cs
        (endsSlash (stripQuery p)) (stripQuery p ++ "/") := by
    show do_GET fs root p = _
    unfold do_GET
    rw [hdir]
  constructor
  · intro hse
    rw [hshow]
    unfold dirResponse
    rw [hse]
    simp [hidx, serveFile, mkResponse]
  · intro hse
    rw [hshow]
    unfold dirResponse
    rw [hse]
    simp [redirectResponse, mkResponse, end_headers]

/-- Witness for C8: the slash-terminated directory request on the sub tree
is answered 200 with the index contents. -/
theorem C8_dir_index_witness :
    (handle fsSub [] { method := Method.GET, path := "/sub/" }).status = 200 ∧
    (handle fsSub [] { method := Method.GET, path := "/sub/" }).body =
      Body.fileBytes [104, 105] :=
  (C8_dir_index fsSub [] "/sub/" [("index.html", Entry.file [104, 105])] [104, 105]
    rfl rfl).1 rfl

/-- C9: a bind failure makes the run terminate with a non-zero exit status,
the OSError and its message propagating uncaught (the traceback is the
message on stderr), after exactly one bind attempt — no retry. -/
theorem C9_bind_failure (msg : String) :
    exitCode (mainRun (some msg)) = 1 ∧
    exitCode (mainRun (some msg)) ≠ 0 ∧
    (mainRun (some msg)).uncaught = some (PyExc.osError msg) ∧
    (mainRun (some msg)).bindAttempts = 1 :=
  ⟨rfl, show (1 : Nat) ≠ 0 by decide, rfl, rfl⟩

/-- C10: a POST request is dispatched to no handler — the Handler class
defines only do_GET and do_HEAD — so the response is the 501 Unsupported
method error, still carrying the three CORS headers, including the
Allow-Methods header that advertises POST. -/
theorem C10_post_501 (fs : Entry) (root : List String) (p : String) :
    (handle fs root { method := Method.POST, path := p }).status = 501 ∧
    ("Access-Control-Allow-Origin", "*") ∈
      (handle fs root { method := Method.POST, path := p }).headers ∧
    ("Access-Control-Allow-Methods", "GET, POST, OPTIONS") ∈
      (handle fs root { method := Method.POST, path := p }).headers ∧
    ("Access-Control-Allow-Headers", "Content-Type") ∈
      (handle fs root { method := Method.POST, path := p }).headers ∧
    (handle fs root { method := Method.POST, path := p }).body =
      Body.errorPage 501 "Unsupported method (POST)" :=
  ⟨rfl,
   show ("Access-Control-Allow-Origin", "*") ∈
       (send_error 501 "Unsupported method (POST)").headers by decide,
   show ("Access-Control-Allow-Methods", "GET, POST, OPTIONS") ∈
       (send_error 501 "Unsupported method (POST)").headers by decide,
   show ("Access-Control-Allow-Headers", "Content-Type") ∈
       (send_error 501 "Unsupported method (POST)").headers by decide,
   rfl⟩


end LandingServer
